import Mathlib

/-!
Shallow embedding of the consensus route of the ai-consensus-engine
repository (src/app/api/consensus/route.ts), together with theorems that
check the specification's claims against it.

The route's network effects are abstracted: each provider's generateText
call is modelled by an `Except String String` (the promise either resolves
with the response text or rejects with the thrown error's message), and
the judge's generateObject call by an `Except String Json` (either the raw
object the judge produced, to be validated against the zod schema, or the
message of a thrown transport error). Everything else is translated
directly from the route's code.
-/

namespace Consensus

/-- A JSON value, as produced by the judge model and consumed by the zod
schema validation of the synthesis call. Numbers are modelled as
rationals. -/
inductive Json where
  | null : Json
  | bool : Bool → Json
  | num : Rat → Json
  | str : String → Json
  | arr : List Json → Json
  | obj : List (String × Json) → Json

/-- Lookup of a key in an association list of JSON object fields. -/
def findField : List (String × Json) → String → Option Json
  | [], _ => none
  | (k, v) :: rest, key => if k = key then some v else findField rest key

/-- Property access on a JSON value (body?.prompt, zod key access);
non-objects have no fields. -/
def getField : Json → String → Option Json
  | .obj fields, key => findField fields key
  | _, _ => none

def asStr : Json → Option String
  | .str s => some s
  | _ => none

def asNum : Json → Option Rat
  | .num q => some q
  | _ => none

def asArr : Json → Option (List Json)
  | .arr xs => some xs
  | _ => none

/-- The three provider display names of the zod supporters enum
(route.ts line 151). -/
def providerNames : List String := ["GPT-5.2", "Claude 3.5 Sonnet", "Gemini 2 Flash"]

/-- The consensus levels of the zod enum (route.ts line 147). -/
def consensusLevels : List String := ["High", "Medium", "Low"]

/-- One claim of the verdict, per the zod schema (route.ts lines 149-154). -/
structure Claim where
  text : String
  supporters : List String
  dissenters : List String
  warning : Option String
deriving DecidableEq, Repr

/-- One conflict of the verdict (route.ts lines 155-158). -/
structure Conflict where
  topic : String
  description : String
deriving DecidableEq, Repr

/-- The verdict shape of the zod schema (route.ts lines 145-159). -/
structure Verdict where
  consensus_score : Rat
  consensus_level : String
  summary : String
  claims : List Claim
  conflicts : Option (List Conflict)
deriving DecidableEq, Repr

/-- z.enum over the three provider names. -/
def parseSupporter (j : Json) : Option String :=
  match asStr j with
  | some s => if s ∈ providerNames then some s else none
  | none => none

/-- z.array of the supporters enum. -/
def parseSupporters : List Json → Option (List String)
  | [] => some []
  | j :: js =>
    match parseSupporter j, parseSupporters js with
    | some s, some ss => some (s :: ss)
    | _, _ => none

/-- z.array(z.string()) for the dissenters field. -/
def parseStrings : List Json → Option (List String)
  | [] => some []
  | j :: js =>
    match asStr j, parseStrings js with
    | some s, some ss => some (s :: ss)
    | _, _ => none

/-- The zod claim object: required text, supporters (enum array),
dissenters (string array), optional string warning. -/
def parseClaim (j : Json) : Option Claim :=
  match getField j "text" >>= asStr,
        getField j "supporters" >>= asArr,
        getField j "dissenters" >>= asArr with
  | some t, some supJ, some disJ =>
    match parseSupporters supJ, parseStrings disJ with
    | some sup, some dis =>
      match getField j "warning" with
      | none => some ⟨t, sup, dis, none⟩
      | some jw =>
        match asStr jw with
        | some w => some ⟨t, sup, dis, some w⟩
        | none => none
    | _, _ => none
  | _, _, _ => none

def parseClaims : List Json → Option (List Claim)
  | [] => some []
  | j :: js =>
    match parseClaim j, parseClaims js with
    | some c, some cs => some (c :: cs)
    | _, _ => none

def parseConflict (j : Json) : Option Conflict :=
  match getField j "topic" >>= asStr, getField j "description" >>= asStr with
  | some t, some d => some ⟨t, d⟩
  | _, _ => none

def parseConflicts : List Json → Option (List Conflict)
  | [] => some []
  | j :: js =>
    match parseConflict j, parseConflicts js with
    | some c, some cs => some (c :: cs)
    | _, _ => none

/-- The zod Verdict schema validation of the synthesis call (route.ts
lines 145-159): consensus_score any number (the 0-100 range appears only
in the describe text and is not enforced), consensus_level one of the
three levels, summary a string, claims an array of claims, conflicts an
optional array of conflicts. generateObject rejects output that does not
match; unknown keys are stripped, as zod does by default. -/
def parseVerdict (j : Json) : Option Verdict :=
  match getField j "consensus_score" >>= asNum,
        getField j "consensus_level" >>= asStr,
        getField j "summary" >>= asStr,
        getField j "claims" >>= asArr with
  | some score, some level, some summary, some claimsJ =>
    if level ∈ consensusLevels then
      match parseClaims claimsJ with
      | some cs =>
        match getField j "conflicts" with
        | none => some ⟨score, level, summary, cs, none⟩
        | some jc =>
          match asArr jc with
          | some xs =>
            match parseConflicts xs with
            | some confs => some ⟨score, level, summary, cs, some confs⟩
            | none => none
          | none => none
      | none => none
    else none
  | _, _, _, _ => none

/-- The three provider slots of the route. -/
inductive Provider where
  | gpt
  | claude
  | gemini
deriving DecidableEq, Repr

instance exceptStringDecEq : DecidableEq (Except String String) := fun x y =>
  match x, y with
  | .ok a, .ok b =>
    if h : a = b then isTrue (by rw [h]) else isFalse (by simp [h])
  | .ok _, .error _ => isFalse (by simp)
  | .error _, .ok _ => isFalse (by simp)
  | .error a, .error b =>
    if h : a = b then isTrue (by rw [h]) else isFalse (by simp [h])

/-- The network behavior of the three generateText calls of one request:
each promise either resolves with text or rejects with an error
message. -/
structure ProviderBehavior where
  gpt : Except String String
  claude : Except String String
  gemini : Except String String
deriving DecidableEq, Repr

def behaviorOf (b : ProviderBehavior) : Provider → Except String String
  | .gpt => b.gpt
  | .claude => b.claude
  | .gemini => b.gemini

/-- The xxxText / xxxError variable pair the route records for one
provider (route.ts lines 64-65, 83-84, 102-103). -/
structure Outcome where
  text : Option String
  error : Option String
deriving DecidableEq, Repr

/-- The try/catch around one generateText call: success stores the text
and leaves the error null, failure stores the thrown message and leaves
the text null (route.ts lines 66-77 and analogues). -/
def runCall : Except String String → Outcome
  | .ok t => ⟨some t, none⟩
  | .error e => ⟨none, some e⟩

/-- The per-provider outcomes of one round. -/
structure RoundResult where
  gpt : Outcome
  claude : Outcome
  gemini : Outcome
deriving DecidableEq, Repr

def runRound (b : ProviderBehavior) : RoundResult :=
  ⟨runCall b.gpt, runCall b.claude, runCall b.gemini⟩

def RoundResult.outcome (r : RoundResult) : Provider → Outcome
  | .gpt => r.gpt
  | .claude => r.claude
  | .gemini => r.gemini

/-- JS Boolean coercion of a string-or-null value: null and the empty
string are falsy, every other string is truthy. -/
def truthy : Option String → Bool
  | none => false
  | some s => if s = "" then false else true

/-- route.ts line 119:
[gptText, claudeText, geminiText].filter(Boolean).length. -/
def successCount (r : RoundResult) : Nat :=
  ([r.gpt.text, r.claude.text, r.gemini.text].filter truthy).length

/-- One conditional entry of the failures array (route.ts lines 122-126):
a label-prefixed message when the recorded error is truthy, else null. -/
def failureEntry (label : String) (e : Option String) : Option String :=
  if truthy e then some (label ++ ": " ++ e.getD "") else none

def failureEntryFor (r : RoundResult) : Provider → Option String
  | .gpt => failureEntry "GPT-5.2" r.gpt.error
  | .claude => failureEntry "Claude 3.5 Sonnet" r.claude.error
  | .gemini => failureEntry "Gemini 2 Flash" r.gemini.error

/-- The failures array of the total-failure response: the three
conditional entries with the nulls filtered out (filter(Boolean); the
kept entries are label-prefixed and hence never the empty string). -/
def failures (r : RoundResult) : List String :=
  [failureEntryFor r .gpt, failureEntryFor r .claude, failureEntryFor r .gemini].filterMap id

/-- route.ts line 140: const synthesizerModel = (!gptError) ? models.gpt
: (!geminiError) ? models.gemini : models.claude. -/
def synthesizerModel (r : RoundResult) : Provider :=
  if truthy r.gpt.error = false then .gpt
  else if truthy r.gemini.error = false then .gemini
  else .claude

/-- The Synthesizer Selector as the specification words it: the first
provider in the configured order (gpt, then claude, then gemini) whose
outcome contains text; none when no provider produced text. Formalised
from the spec for comparison against the route's selector. -/
def specChoose (r : RoundResult) : Option Provider :=
  if truthy r.gpt.text then some .gpt
  else if truthy r.claude.text then some .claude
  else if truthy r.gemini.text then some .gemini
  else none

/-- The set of providers whose call produced truthy text, in configured
order. -/
def successSet (r : RoundResult) : List Provider :=
  [Provider.gpt, Provider.claude, Provider.gemini].filter
    (fun p => truthy (r.outcome p).text)

/-- The response body of a successful request: the verdict fields spread
verbatim plus the raw_answers object (route.ts lines 188-195). -/
structure FinalPayload where
  consensus_score : Rat
  consensus_level : String
  summary : String
  claims : List Claim
  conflicts : Option (List Conflict)
  raw_answers : List (String × String)
deriving DecidableEq, Repr

/-- route.ts lines 188-195: spread of synthesis.object plus raw_answers;
the nullish coalescing ?? keeps an empty string and substitutes the
sentinel only for null. -/
def assemble (v : Verdict) (r : RoundResult) : FinalPayload :=
  ⟨v.consensus_score, v.consensus_level, v.summary, v.claims, v.conflicts,
   [("gpt", r.gpt.text.getD "[unavailable]"),
    ("claude", r.claude.text.getD "[unavailable]"),
    ("gemini", r.gemini.text.getD "[unavailable]")]⟩

/-- The four response shapes the route can return, with their statuses:
200 success, 400 validation error, 502 total failure, 500 synthesis or
unexpected fault. -/
inductive Response where
  | ok (payload : FinalPayload)
  | badRequest (error : String)
  | totalFailure (error : String) (failures : List String)
  | serverError (error : String) (details : String)
deriving DecidableEq, Repr

def Response.status : Response → Nat
  | .ok _ => 200
  | .badRequest _ => 400
  | .totalFailure _ _ => 502
  | .serverError _ _ => 500

/-- The observable outbound actions of one request: a provider query, an
inter-call sleep, or the synthesis call to the chosen judge. -/
inductive Event where
  | query (p : Provider)
  | delay (ms : Nat)
  | synth (judge : Provider)
deriving DecidableEq, Repr

def isQuery : Event → Bool
  | .query _ => true
  | _ => false

/-- String.prototype.trim on the prompt, modelled over the string's
character list: leading and trailing whitespace removed. -/
def jsTrim (s : String) : String :=
  ⟨((s.data.dropWhile Char.isWhitespace).reverse.dropWhile Char.isWhitespace).reverse⟩

/-- route.ts lines 36-45: prompt = body?.prompt, rejected when falsy, not
a string, or empty after trimming. -/
def parsePrompt (body : Json) : Option String :=
  match getField body "prompt" with
  | some (.str s) => if s = "" then none else if jsTrim s = "" then none else some s
  | _ => none

/-- The per-request keys object of the inbound body (string fields,
each optional). -/
structure Keys where
  openai : Option String
  anthropic : Option String
  google : Option String
deriving DecidableEq, Repr

/-- The deployment-level default credentials: process.env.OPENAI_API_KEY,
process.env.ANTHROPIC_API_KEY, process.env.GOOGLE_GENERATIVE_AI_API_KEY
(each possibly unset). -/
structure Env where
  openaiDefault : Option String
  anthropicDefault : Option String
  googleDefault : Option String
deriving DecidableEq, Repr

/-- JS a || b on a string-or-undefined left operand: the left value when
truthy, else the right value. -/
def jsOr (a : Option String) (b : String) : String :=
  match a with
  | some s => if s = "" then b else s
  | none => b

/-- The apiKey each provider client is constructed with; the synthesizer
slot is another openai client built from the same key. -/
structure Models where
  gptKey : String
  claudeKey : String
  geminiKey : String
  synthesizerKey : String
deriving DecidableEq, Repr

/-- route.ts lines 11-29: apiKey: keys.x || process.env.X || for each
provider. -/
def buildModels (keys : Keys) (env : Env) : Models :=
  ⟨jsOr keys.openai (jsOr env.openaiDefault ""),
   jsOr keys.anthropic (jsOr env.anthropicDefault ""),
   jsOr keys.google (jsOr env.googleDefault ""),
   jsOr keys.openai (jsOr env.openaiDefault "")⟩

/-- The POST handler (route.ts lines 31-202). Takes the parsed request
body (none models a body whose JSON parse threw), the behavior of the
three provider calls, and the judge call's raw result; returns the HTTP
response together with the trace of outbound calls and sleeps. The AI
SDK's generateObject validates the judge output against the schema and
throws on mismatch, which the route's outer catch turns into a 500; its
message is modelled by a fixed string. -/
def POST (body : Option Json) (b : ProviderBehavior)
    (judgeRaw : Except String Json) : Response × List Event :=
  match body with
  | none => (.badRequest "Invalid JSON in request body.", [])
  | some j =>
    match parsePrompt j with
    | none => (.badRequest "A non-empty \x27prompt\x27 field is required.", [])
    | some _ =>
      let r := runRound b
      let fanout : List Event :=
        [.query .gpt, .delay 500, .query .claude, .delay 500, .query .gemini]
      if successCount r = 0 then
        (.totalFailure "All models failed to respond." (failures r), fanout)
      else
        let judge := synthesizerModel r
        match judgeRaw with
        | .error e =>
          (.serverError "Failed to generate consensus." e, fanout ++ [.synth judge])
        | .ok jv =>
          match parseVerdict jv with
          | none =>
            (.serverError "Failed to generate consensus."
              "No object generated: response did not match schema.",
             fanout ++ [.synth judge])
          | some v => (.ok (assemble v r), fanout ++ [.synth judge])

/-- The raw_answers key of one provider. -/
def rawKey : Provider → String
  | .gpt => "gpt"
  | .claude => "claude"
  | .gemini => "gemini"

/- Concrete inputs used by counterexamples and witnesses. -/

def promptBody : Json := .obj [("prompt", .str "hi")]

def wsPromptBody : Json := .obj [("prompt", .str " ")]

def bOrder : ProviderBehavior := ⟨.error "boom", .ok "A", .ok "B"⟩

def bEmptyGpt : ProviderBehavior := ⟨.ok "", .ok "x", .ok "y"⟩

def bGptFailed : ProviderBehavior := ⟨.error "boom", .ok "x", .ok "y"⟩

def bAllFail : ProviderBehavior := ⟨.error "auth", .error "quota", .error "net"⟩

def bOnlyClaude : ProviderBehavior := ⟨.error "bad key", .ok "Paris.", .error "quota"⟩

def bAllOk : ProviderBehavior := ⟨.ok "Yes.", .ok "Mostly.", .ok "Fine."⟩

def score150Json : Json :=
  .obj [("consensus_score", .num 150), ("consensus_level", .str "High"),
        ("summary", .str "s"), ("claims", .arr [])]

def score150Verdict : Verdict := ⟨150, "High", "s", [], none⟩

def badLevelJson : Json :=
  .obj [("consensus_score", .num 80), ("consensus_level", .str "Certain"),
        ("summary", .str "s"), ("claims", .arr [])]

def badAttrJson : Json :=
  .obj [("consensus_score", .num 90), ("consensus_level", .str "High"),
        ("summary", .str "s"),
        ("claims", .arr
          [.obj [("text", .str "t"),
                 ("supporters", .arr [.str "GPT-5.2"]),
                 ("dissenters", .arr [.str "Atlantis Model"])]])]

def badAttrVerdict : Verdict :=
  ⟨90, "High", "s", [⟨"t", ["GPT-5.2"], ["Atlantis Model"], none⟩], none⟩

def okJson : Json :=
  .obj [("consensus_score", .num 88), ("consensus_level", .str "High"),
        ("summary", .str "Yes."), ("claims", .arr [])]

def okVerdict : Verdict := ⟨88, "High", "Yes.", [], none⟩

/- Helper lemmas shared by the claim theorems. -/

theorem parseSupporter_mem (j : Json) (s : String)
    (h : parseSupporter j = some s) : s ∈ providerNames := by
  unfold parseSupporter at h
  split at h
  · split at h
    · cases h; assumption
    · cases h
  · cases h

theorem parseSupporters_mem (js : List Json) (ss : List String)
    (h : parseSupporters js = some ss) : ∀ s ∈ ss, s ∈ providerNames := by
  induction js generalizing ss with
  | nil =>
    unfold parseSupporters at h
    cases h
    intro s hs
    cases hs
  | cons j js ih =>
    unfold parseSupporters at h
    cases h1 : parseSupporter j with
    | none => rw [h1] at h; cases h
    | some s0 =>
      cases h2 : parseSupporters js with
      | none => rw [h1, h2] at h; cases h
      | some ss0 =>
        rw [h1, h2] at h
        cases h
        intro s hs
        cases hs with
        | head => exact parseSupporter_mem j s0 h1
        | tail _ hmem => exact ih ss0 h2 s hmem

theorem parseClaim_supporters (j : Json) (c : Claim)
    (h : parseClaim j = some c) : ∀ s ∈ c.supporters, s ∈ providerNames := by
  unfold parseClaim at h
  split at h
  · rename_i t supJ disJ _ _ _
    split at h
    · rename_i sup dis hsup hdis
      split at h
      · cases h; exact parseSupporters_mem supJ sup hsup
      · split at h
        · cases h; exact parseSupporters_mem supJ sup hsup
        · cases h
    · cases h
  · cases h

theorem parseClaims_supporters (js : List Json) (cs : List Claim)
    (h : parseClaims js = some cs) :
    ∀ c ∈ cs, ∀ s ∈ c.supporters, s ∈ providerNames := by
  induction js generalizing cs with
  | nil =>
    unfold parseClaims at h
    cases h
    intro c hc
    cases hc
  | cons j js ih =>
    unfold parseClaims at h
    cases h1 : parseClaim j with
    | none => rw [h1] at h; cases h
    | some c0 =>
      cases h2 : parseClaims js with
      | none => rw [h1, h2] at h; cases h
      | some cs0 =>
        rw [h1, h2] at h
        cases h
        intro c hc
        cases hc with
        | head => exact parseClaim_supporters j c0 h1
        | tail _ hmem => exact ih cs0 h2 c hmem

theorem parseVerdict_sound (j : Json) (v : Verdict)
    (h : parseVerdict j = some v) :
    v.consensus_level ∈ consensusLevels ∧
    ∀ c ∈ v.claims, ∀ s ∈ c.supporters, s ∈ providerNames := by
  unfold parseVerdict at h
  split at h
  · rename_i score level summary claimsJ _ _ _ _
    split at h
    · rename_i hlevel
      split at h
      · rename_i cs hcs
        split at h
        · cases h; exact ⟨hlevel, parseClaims_supporters claimsJ cs hcs⟩
        · split at h
          · split at h
            · cases h; exact ⟨hlevel, parseClaims_supporters claimsJ cs hcs⟩
            · cases h
          · cases h
      · cases h
    · cases h
  · cases h

theorem successCount_eq (r : RoundResult) :
    successCount r
      = (if truthy r.gpt.text then 1 else 0)
        + (if truthy r.claude.text then 1 else 0)
        + (if truthy r.gemini.text then 1 else 0) := by
  unfold successCount
  cases h1 : truthy r.gpt.text <;> cases h2 : truthy r.claude.text <;>
    cases h3 : truthy r.gemini.text <;>
    simp [List.filter, h1, h2, h3]

theorem runCall_error_truthy (x : Except String String)
    (h : truthy (runCall x).error = true) : (runCall x).text = none := by
  cases x with
  | ok t => simp [runCall, truthy] at h
  | error e => rfl

theorem runCall_text_truthy (x : Except String String)
    (h : truthy (runCall x).text = true) : (runCall x).error = none := by
  cases x with
  | ok t => rfl
  | error e => simp [runCall, truthy] at h

/-- Claim C2 counterexample (closed): with gpt failed and claude and
gemini successful, the selector the spec describes (first of gpt, claude,
gemini with text) picks claude but the route picks gemini; with gpt
succeeding with empty text the route picks gpt although its outcome
contains no text; and two rounds with the same set of text-producing
providers get different judges, so the judge is not a function of which
providers succeeded. -/
theorem c2_counterexample :
    (specChoose (runRound bOrder) = some Provider.claude ∧
      synthesizerModel (runRound bOrder) = Provider.gemini) ∧
    (synthesizerModel (runRound bEmptyGpt) = Provider.gpt ∧
      truthy ((runRound bEmptyGpt).outcome Provider.gpt).text = false ∧
      1 ≤ successCount (runRound bEmptyGpt)) ∧
    (successSet (runRound bEmptyGpt) = successSet (runRound bGptFailed) ∧
      synthesizerModel (runRound bEmptyGpt) ≠ synthesizerModel (runRound bGptFailed)) := by
  decide

/-- Claim C3 counterexample (closed): a judge output whose
consensus_score is 150, outside [0,100], passes the schema validation and
the request completes with a 200 success response instead of a hard
error. -/
theorem c3_counterexample :
    parseVerdict score150Json = some score150Verdict ∧
    ¬ score150Verdict.consensus_score ≤ 100 ∧
    (POST (some promptBody) bAllOk (.ok score150Json)).1
      = .ok (assemble score150Verdict (runRound bAllOk)) := by
  decide

/-- Claim C4 counterexample (closed): in a round where only claude
returned text, a judge output whose claim lists gpt as a supporter and a
non-provider string as a dissenter passes validation and reaches the
final payload unchanged. -/
theorem c4_counterexample :
    truthy ((runRound bOnlyClaude).outcome Provider.gpt).text = false ∧
    truthy ((runRound bOnlyClaude).outcome Provider.gemini).text = false ∧
    parseVerdict badAttrJson = some badAttrVerdict ∧
    badAttrVerdict.claims.map Claim.supporters = [["GPT-5.2"]] ∧
    badAttrVerdict.claims.map Claim.dissenters = [["Atlantis Model"]] ∧
    (POST (some promptBody) bOnlyClaude (.ok badAttrJson)).1
      = .ok (assemble badAttrVerdict (runRound bOnlyClaude)) := by
  decide

/-- Claim C8: each provider client is constructed with the caller's key
for that provider when it is present and non-empty, and otherwise with
the deployment-level default (the provider's env var, or the empty string
when that is unset too); a missing or empty caller key always falls back
to the default. -/
theorem c8_keys (keys : Keys) (env : Env) :
    ((∀ k, keys.openai = some k → k ≠ "" → (buildModels keys env).gptKey = k) ∧
      ((keys.openai = none ∨ keys.openai = some "") →
        (buildModels keys env).gptKey = jsOr env.openaiDefault "")) ∧
    ((∀ k, keys.anthropic = some k → k ≠ "" → (buildModels keys env).claudeKey = k) ∧
      ((keys.anthropic = none ∨ keys.anthropic = some "") →
        (buildModels keys env).claudeKey = jsOr env.anthropicDefault "")) ∧
    ((∀ k, keys.google = some k → k ≠ "" → (buildModels keys env).geminiKey = k) ∧
      ((keys.google = none ∨ keys.google = some "") →
        (buildModels keys env).geminiKey = jsOr env.googleDefault "")) := by
  refine ⟨⟨?_, ?_⟩, ⟨?_, ?_⟩, ⟨?_, ?_⟩⟩
  · intro k hk hne; simp [buildModels, jsOr, hk, hne]
  · intro hk; rcases hk with hk | hk <;> simp [buildModels, jsOr, hk]
  · intro k hk hne; simp [buildModels, jsOr, hk, hne]
  · intro hk; rcases hk with hk | hk <;> simp [buildModels, jsOr, hk]
  · intro k hk hne; simp [buildModels, jsOr, hk, hne]
  · intro hk; rcases hk with hk | hk <;> simp [buildModels, jsOr, hk]

def witnessKeys : Keys := ⟨some "", some "sk-user", none⟩

def witnessEnv : Env := ⟨some "sk-env", some "sk-env2", none⟩

/-- Closed witness for c8_keys at a concrete keys/env pair: an empty
caller openai key falls back to the env default, and a non-empty caller
anthropic key is used as given. -/
theorem c8_keys_witness :
    (buildModels witnessKeys witnessEnv).gptKey = jsOr witnessEnv.openaiDefault "" ∧
    (buildModels witnessKeys witnessEnv).claudeKey = "sk-user" :=
  ⟨(c8_keys witnessKeys witnessEnv).1.2 (Or.inr rfl),
   (c8_keys witnessKeys witnessEnv).2.1.1 "sk-user" rfl (by decide)⟩

/-- Claim C1: when all three provider calls fail to produce text
(successCount = 0), the handler makes no synthesis call and returns the
502 total-failure response with an error message and a failures list
holding exactly the providers whose recorded error is truthy, each
prefixed with its display name and carrying its error message. -/
theorem c1_total_failure (body : Json) (p : String) (b : ProviderBehavior)
    (jr : Except String Json)
    (hp : parsePrompt body = some p)
    (h0 : successCount (runRound b) = 0) :
    (POST (some body) b jr).1
      = .totalFailure "All models failed to respond." (failures (runRound b)) ∧
    ((POST (some body) b jr).1).status = 502 ∧
    (∀ q, Event.synth q ∉ (POST (some body) b jr).2) ∧
    (∀ s, s ∈ failures (runRound b) ↔
      ((truthy (runRound b).gpt.error = true ∧
          s = "GPT-5.2: " ++ (runRound b).gpt.error.getD "") ∨
        (truthy (runRound b).claude.error = true ∧
          s = "Claude 3.5 Sonnet: " ++ (runRound b).claude.error.getD "") ∨
        (truthy (runRound b).gemini.error = true ∧
          s = "Gemini 2 Flash: " ++ (runRound b).gemini.error.getD ""))) := by
  have hpost : POST (some body) b jr
      = (.totalFailure "All models failed to respond." (failures (runRound b)),
          [.query .gpt, .delay 500, .query .claude, .delay 500, .query .gemini]) := by
    simp [POST, hp, h0]
  refine ⟨by rw [hpost], by rw [hpost]; rfl, ?_, ?_⟩
  · intro q
    rw [hpost]
    simp
  · intro s
    unfold failures failureEntryFor failureEntry
    cases hg : truthy (runRound b).gpt.error <;>
      cases hc : truthy (runRound b).claude.error <;>
      cases hm : truthy (runRound b).gemini.error <;>
      simp [hg, hc, hm]

/-- Closed witness for c1_total_failure: all three providers throw, the
response is the 502 total failure and gpt's formatted message is
listed. -/
theorem c1_total_failure_witness :
    (POST (some promptBody) bAllFail (.error "x")).1
      = .totalFailure "All models failed to respond." (failures (runRound bAllFail)) ∧
    "GPT-5.2: auth" ∈ failures (runRound bAllFail) :=
  ⟨(c1_total_failure promptBody "hi" bAllFail (.error "x") (by decide) (by decide)).1,
    ((c1_total_failure promptBody "hi" bAllFail (.error "x") (by decide)
        (by decide)).2.2.2 "GPT-5.2: auth").mpr (Or.inl ⟨by decide, by decide⟩)⟩

/-- Claim C2 amended: the selector picks the first provider in the fixed
order gpt, gemini, claude whose recorded error is not truthy (claude is
the final fallback), and the chosen judge is a function of the error
profile of the round alone. -/
theorem c2_amended (b b2 : ProviderBehavior)
    (hg : truthy (runRound b).gpt.error = truthy (runRound b2).gpt.error)
    (hm : truthy (runRound b).gemini.error = truthy (runRound b2).gemini.error) :
    synthesizerModel (runRound b)
      = (([Provider.gpt, Provider.gemini, Provider.claude].find?
            (fun q => !truthy ((runRound b).outcome q).error)).getD Provider.claude) ∧
    synthesizerModel (runRound b) = synthesizerModel (runRound b2) := by
  constructor
  · cases h1 : truthy (runRound b).gpt.error <;>
      cases h2 : truthy (runRound b).gemini.error <;>
      cases h3 : truthy (runRound b).claude.error <;>
      simp [synthesizerModel, List.find?, RoundResult.outcome, h1, h2, h3]
  · unfold synthesizerModel
    rw [hg, hm]

/-- Closed witness for c2_amended at the concrete round bOrder. -/
theorem c2_amended_witness :
    synthesizerModel (runRound bOrder)
      = (([Provider.gpt, Provider.gemini, Provider.claude].find?
            (fun q => !truthy ((runRound bOrder).outcome q).error)).getD Provider.claude) ∧
    synthesizerModel (runRound bOrder) = synthesizerModel (runRound bOrder) :=
  c2_amended bOrder bOrder rfl rfl

/-- Claim C3 amended: validation accepts the judge output only when it
has the schema's shape - the level among High/Medium/Low and every
claim's supporters among the three provider names - and any shape
violation is a hard 500 error for the request with no coercion, but the
numeric [0,100] range on the score is not enforced: a score of 150 is
accepted. -/
theorem c3_amended :
    (∀ j v, parseVerdict j = some v →
      v.consensus_level ∈ consensusLevels ∧
      ∀ c ∈ v.claims, ∀ s ∈ c.supporters, s ∈ providerNames) ∧
    parseVerdict score150Json = some score150Verdict ∧
    parseVerdict badLevelJson = none ∧
    (∀ body p b jv, parsePrompt body = some p →
      1 ≤ successCount (runRound b) → parseVerdict jv = none →
      (POST (some body) b (.ok jv)).1
        = .serverError "Failed to generate consensus."
            "No object generated: response did not match schema.") := by
  refine ⟨fun j v h => parseVerdict_sound j v h, by decide, by decide, ?_⟩
  intro body p b jv hp hs hv
  have h0 : ¬ successCount (runRound b) = 0 := by omega
  simp [POST, hp, h0, hv]

/-- Closed witness for c3_amended: the accepted out-of-range verdict has
a valid level, and a bad-level judge output makes the request a 500. -/
theorem c3_amended_witness :
    "High" ∈ consensusLevels ∧
    (POST (some promptBody) bAllOk (.ok badLevelJson)).1
      = .serverError "Failed to generate consensus."
          "No object generated: response did not match schema." :=
  ⟨(c3_amended.1 score150Json score150Verdict (by decide)).1,
    c3_amended.2.2.2 promptBody "hi" bAllOk badLevelJson (by decide) (by decide) (by decide)⟩

/-- Claim C4 amended: validation restricts every accepted claim's
supporters to the three fixed provider names and its dissenters only to
strings; neither list is restricted to the providers that returned text
in the round, as the accepted output badAttrJson shows against the round
where only claude answered. -/
theorem c4_amended :
    (∀ j v, parseVerdict j = some v →
      ∀ c ∈ v.claims, ∀ s ∈ c.supporters, s ∈ providerNames) ∧
    (parseVerdict badAttrJson = some badAttrVerdict ∧
      truthy ((runRound bOnlyClaude).outcome Provider.gpt).text = false ∧
      badAttrVerdict.claims.map Claim.supporters = [["GPT-5.2"]] ∧
      "Atlantis Model" ∉ providerNames ∧
      badAttrVerdict.claims.map Claim.dissenters = [["Atlantis Model"]]) := by
  constructor
  · intro j v h
    exact (parseVerdict_sound j v h).2
  · decide

/-- Closed witness for c4_amended: the supporter name of the accepted
bad-attribution verdict is one of the three provider names. -/
theorem c4_amended_witness : "GPT-5.2" ∈ providerNames :=
  c4_amended.1 badAttrJson badAttrVerdict (by decide)
    ⟨"t", ["GPT-5.2"], ["Atlantis Model"], none⟩ (by decide) "GPT-5.2" (by decide)

/-- The full event trace of a successful request whose judge is gpt. -/
def traceGpt : List Event :=
  [.query .gpt, .delay 500, .query .claude, .delay 500, .query .gemini, .synth .gpt]

/-- Claim C5: every successful response is the pure merge of the
validated verdict with the round - the verdict fields are copied
verbatim, raw_answers holds exactly one entry per configured provider in
configuration order (gpt, claude, gemini), each the provider's recorded
text when present (nullish coalescing, so an empty string is kept) and
the sentinel otherwise - and the merge is deterministic: equal inputs
give the same payload. -/
theorem c5_assembler (body : Json) (b : ProviderBehavior) (jv : Json)
    (v : Verdict) (payload : FinalPayload) (tr : List Event)
    (hv : parseVerdict jv = some v)
    (hpost : POST (some body) b (.ok jv) = (.ok payload, tr)) :
    payload = assemble v (runRound b) ∧
    payload.consensus_score = v.consensus_score ∧
    payload.consensus_level = v.consensus_level ∧
    payload.summary = v.summary ∧
    payload.claims = v.claims ∧
    payload.conflicts = v.conflicts ∧
    payload.raw_answers
      = [("gpt", (runRound b).gpt.text.getD "[unavailable]"),
         ("claude", (runRound b).claude.text.getD "[unavailable]"),
         ("gemini", (runRound b).gemini.text.getD "[unavailable]")] ∧
    payload.raw_answers.map Prod.fst = ["gpt", "claude", "gemini"] ∧
    (∀ v2 r2, v2 = v → r2 = runRound b → assemble v2 r2 = payload) := by
  have hpayload : payload = assemble v (runRound b) := by
    cases hpp : parsePrompt body with
    | none => simp [POST, hpp] at hpost
    | some p =>
      by_cases h0 : successCount (runRound b) = 0
      · simp [POST, hpp, h0] at hpost
      · simp [POST, hpp, h0, hv] at hpost
        exact hpost.1.symm
  subst hpayload
  refine ⟨rfl, rfl, rfl, rfl, rfl, rfl, rfl, rfl, ?_⟩
  intro v2 r2 h1 h2
  rw [h1, h2]

/-- Closed witness for c5_assembler at the all-ok round with a valid
verdict: the payload keys are exactly the three providers in order. -/
theorem c5_assembler_witness :
    (assemble okVerdict (runRound bAllOk)).raw_answers.map Prod.fst
      = ["gpt", "claude", "gemini"] :=
  (c5_assembler promptBody bAllOk okJson okVerdict
    (assemble okVerdict (runRound bAllOk)) traceGpt (by decide)
    (by decide)).2.2.2.2.2.2.2.1

/-- Claim C6: a malformed JSON body, or a prompt that is missing, not a
string, the empty string, or whitespace only, yields a 400 response with
an error message and an empty outbound trace - no provider call is
made. -/
theorem c6_validation (b : ProviderBehavior) (jr : Except String Json) :
    (POST none b jr = (.badRequest "Invalid JSON in request body.", []) ∧
      (POST none b jr).1.status = 400) ∧
    (∀ body, parsePrompt body = none →
      POST (some body) b jr
        = (.badRequest "A non-empty \x27prompt\x27 field is required.", []) ∧
      (POST (some body) b jr).1.status = 400) ∧
    (∀ body, getField body "prompt" = none → parsePrompt body = none) ∧
    (∀ body, getField body "prompt" = some (.str "") → parsePrompt body = none) ∧
    (∀ body s, getField body "prompt" = some (.str s) → jsTrim s = "" →
      parsePrompt body = none) ∧
    (∀ body q, getField body "prompt" = some (.num q) → parsePrompt body = none) := by
  refine ⟨⟨rfl, rfl⟩, ?_, ?_, ?_, ?_, ?_⟩
  · intro body hbp
    exact ⟨by simp [POST, hbp], by simp [POST, hbp, Response.status]⟩
  · intro body hbp
    simp [parsePrompt, hbp]
  · intro body hbp
    simp [parsePrompt, hbp]
  · intro body s hbp ht
    simp [parsePrompt, hbp, ht]
  · intro body q hbp
    simp [parsePrompt, hbp]

/-- Closed witness for c6_validation: a whitespace-only prompt is
rejected with the 400 validation response and an empty trace. -/
theorem c6_validation_witness :
    POST (some wsPromptBody) bAllOk (.error "e")
      = (.badRequest "A non-empty \x27prompt\x27 field is required.", []) :=
  ((c6_validation bAllOk (.error "e")).2.1 wsPromptBody (by decide)).1

/-- Claim C7: on every validated request the fan-out is sequential in the
fixed order gpt, claude, gemini with a 500ms delay between consecutive
calls, each provider is queried exactly once whatever the individual
outcomes (a failure never raises out of the round or stops later calls),
and every provider ends the round with exactly one populated outcome
slot: text exactly when its call did not throw. -/
theorem c7_sequential (body : Json) (p : String) (b : ProviderBehavior)
    (jr : Except String Json) (hp : parsePrompt body = some p) :
    (POST (some body) b jr).2.take 5
      = [.query .gpt, .delay 500, .query .claude, .delay 500, .query .gemini] ∧
    (POST (some body) b jr).2.filter isQuery
      = [.query .gpt, .query .claude, .query .gemini] ∧
    (∀ q : Provider,
      ((runRound b).outcome q).text.isSome = !((runRound b).outcome q).error.isSome) := by
  have hsplit : (POST (some body) b jr).2
        = [.query .gpt, .delay 500, .query .claude, .delay 500, .query .gemini] ∨
      (POST (some body) b jr).2
        = [.query .gpt, .delay 500, .query .claude, .delay 500, .query .gemini]
            ++ [.synth (synthesizerModel (runRound b))] := by
    by_cases h0 : successCount (runRound b) = 0
    · left
      simp [POST, hp, h0]
    · right
      cases jr with
      | error e => simp [POST, hp, h0]
      | ok jv =>
        cases hv : parseVerdict jv with
        | none => simp [POST, hp, h0, hv]
        | some v => simp [POST, hp, h0, hv]
  refine ⟨?_, ?_, ?_⟩
  · rcases hsplit with h | h <;> rw [h] <;> rfl
  · rcases hsplit with h | h <;> rw [h] <;> simp [isQuery]
  · intro q
    cases q with
    | gpt => cases hb : b.gpt <;> simp [runRound, runCall, RoundResult.outcome, hb]
    | claude => cases hb : b.claude <;> simp [runRound, runCall, RoundResult.outcome, hb]
    | gemini => cases hb : b.gemini <;> simp [runRound, runCall, RoundResult.outcome, hb]

/-- Closed witness for c7_sequential: even when every provider throws,
the trace still queries all three in order with the delays. -/
theorem c7_sequential_witness :
    (POST (some promptBody) bAllFail (.error "x")).2.take 5
      = [.query .gpt, .delay 500, .query .claude, .delay 500, .query .gemini] :=
  (c7_sequential promptBody "hi" bAllFail (.error "x") (by decide)).1

/-- Claim C9: a provider call that returns the empty string is not
counted by successCount, contributes no entry to the failures list, gets
the empty string - not the sentinel - as its raw_answers entry, and
remains eligible as synthesis judge (its recorded error is not truthy;
gpt in that state is in fact selected). -/
theorem c9_empty_text (b : ProviderBehavior) (q : Provider) (v : Verdict)
    (h : behaviorOf b q = .ok "") :
    truthy ((runRound b).outcome q).text = false ∧
    (if truthy ((runRound b).outcome q).text then 1 else 0) = 0 ∧
    successCount (runRound b)
      = (if truthy (runRound b).gpt.text then 1 else 0)
        + (if truthy (runRound b).claude.text then 1 else 0)
        + (if truthy (runRound b).gemini.text then 1 else 0) ∧
    failureEntryFor (runRound b) q = none ∧
    (rawKey q, "") ∈ (assemble v (runRound b)).raw_answers ∧
    truthy ((runRound b).outcome q).error = false ∧
    (q = .gpt → synthesizerModel (runRound b) = .gpt) := by
  cases q with
  | gpt =>
    simp only [behaviorOf] at h
    refine ⟨?_, ?_, successCount_eq _, ?_, ?_, ?_, ?_⟩ <;>
      simp [runRound, RoundResult.outcome, runCall, h, truthy, failureEntryFor,
        failureEntry, assemble, rawKey, synthesizerModel]
  | claude =>
    simp only [behaviorOf] at h
    refine ⟨?_, ?_, successCount_eq _, ?_, ?_, ?_, ?_⟩ <;>
      simp [runRound, RoundResult.outcome, runCall, h, truthy, failureEntryFor,
        failureEntry, assemble, rawKey, synthesizerModel]
  | gemini =>
    simp only [behaviorOf] at h
    refine ⟨?_, ?_, successCount_eq _, ?_, ?_, ?_, ?_⟩ <;>
      simp [runRound, RoundResult.outcome, runCall, h, truthy, failureEntryFor,
        failureEntry, assemble, rawKey, synthesizerModel]

/-- Closed witness for c9_empty_text: with gpt returning the empty
string, its text is not truthy and it is still chosen as the judge. -/
theorem c9_empty_text_witness :
    truthy ((runRound bEmptyGpt).outcome Provider.gpt).text = false ∧
    synthesizerModel (runRound bEmptyGpt) = Provider.gpt :=
  ⟨(c9_empty_text bEmptyGpt Provider.gpt okVerdict rfl).1,
    (c9_empty_text bEmptyGpt Provider.gpt okVerdict rfl).2.2.2.2.2.2 rfl⟩

/-- Claim C10: whenever synthesis is attempted (successCount is at least
1), the selected judge has no truthy recorded error; in particular, in
the fallback branch where both the gpt and the gemini calls errored, the
claude call necessarily produced truthy text and recorded no error at
all, so the unconditional fallback to claude never selects a failed
judge. -/
theorem c10_judge_safe (b : ProviderBehavior)
    (h : 1 ≤ successCount (runRound b)) :
    truthy ((runRound b).outcome (synthesizerModel (runRound b))).error = false ∧
    (truthy (runRound b).gpt.error = true → truthy (runRound b).gemini.error = true →
      synthesizerModel (runRound b) = .claude ∧
      truthy (runRound b).claude.text = true ∧
      (runRound b).claude.error = none) := by
  by_cases hg : truthy (runRound b).gpt.error = false
  · constructor
    · simp [synthesizerModel, hg, RoundResult.outcome]
    · intro h1 _
      rw [hg] at h1
      simp at h1
  · have hg2 : truthy (runRound b).gpt.error = true := by
      cases hgg : truthy (runRound b).gpt.error
      · exact absurd hgg hg
      · rfl
    by_cases hm : truthy (runRound b).gemini.error = false
    · constructor
      · simp [synthesizerModel, hg2, hm, RoundResult.outcome]
      · intro _ h2
        rw [hm] at h2
        simp at h2
    · have hm2 : truthy (runRound b).gemini.error = true := by
        cases hmm : truthy (runRound b).gemini.error
        · exact absurd hmm hm
        · rfl
      have hgt : (runRound b).gpt.text = none := runCall_error_truthy b.gpt hg2
      have hmt : (runRound b).gemini.text = none := runCall_error_truthy b.gemini hm2
      have hsum := successCount_eq (runRound b)
      rw [hgt, hmt] at hsum
      have hct : truthy (runRound b).claude.text = true := by
        cases hcc : truthy (runRound b).claude.text
        · rw [hcc] at hsum
          simp [truthy] at hsum
          omega
        · rfl
      have hce : (runRound b).claude.error = none := runCall_text_truthy b.claude hct
      constructor
      · have hsel : synthesizerModel (runRound b) = .claude := by
          simp [synthesizerModel, hg2, hm2]
        rw [hsel]
        simp [RoundResult.outcome, hce, truthy]
      · intro _ _
        exact ⟨by simp [synthesizerModel, hg2, hm2], hct, hce⟩

/-- Closed witness for c10_judge_safe: with gpt and gemini both throwing
and claude answering, the judge is claude and its recorded error is not
truthy. -/
theorem c10_judge_safe_witness :
    truthy ((runRound bOnlyClaude).outcome
        (synthesizerModel (runRound bOnlyClaude))).error = false ∧
    synthesizerModel (runRound bOnlyClaude) = Provider.claude :=
  ⟨(c10_judge_safe bOnlyClaude (by decide)).1,
    ((c10_judge_safe bOnlyClaude (by decide)).2 (by decide) (by decide)).1⟩

end Consensus
